import Mathlib

/-!
Verification of the tracktable terrestrial domain against its specification:
the floating-point comparator (FloatingPointComparison.h), the terrestrial
algorithm specializations and ECEF transform (Domain/Terrestrial.h), and the
fraction-sampling algorithm signatures (PointAtFraction.h).

Doubles are modelled two ways:
* `Fl`: exact rationals extended with plus/minus infinity and a single NaN,
  used for the floating-point comparator, where IEEE special values matter;
* `ℝ`: ideal real-number semantics, used for the trigonometric geometry.
-/

/-- Model of an IEEE double value: a finite value is an exact rational;
plus/minus infinity and NaN are explicit.  The two IEEE zeros are identified
(rationals have a single zero). -/
inductive Fl where
| nan : Fl
| inf : Fl
| ninf : Fl
| val : ℚ → Fl
deriving DecidableEq

/-- IEEE comparison a == b: false whenever NaN is involved (even on two NaNs),
value equality otherwise. -/
def ieeeEq : Fl → Fl → Bool
  | Fl.nan, _ => false
  | _, Fl.nan => false
  | Fl.inf, Fl.inf => true
  | Fl.ninf, Fl.ninf => true
  | Fl.val q, Fl.val r => if q = r then true else false
  | _, _ => false

/-- IEEE comparison a < b: false whenever NaN is involved. -/
def flLt : Fl → Fl → Bool
  | Fl.nan, _ => false
  | _, Fl.nan => false
  | Fl.ninf, Fl.ninf => false
  | Fl.ninf, _ => true
  | _, Fl.ninf => false
  | Fl.inf, _ => false
  | _, Fl.inf => true
  | Fl.val q, Fl.val r => if q < r then true else false

/-- IEEE absolute value (std abs); on a finite value this is the rational
absolute value, written as a conditional negation. -/
def flAbs : Fl → Fl
  | Fl.nan => Fl.nan
  | Fl.inf => Fl.inf
  | Fl.ninf => Fl.inf
  | Fl.val q => Fl.val (if q < 0 then -q else q)

/-- IEEE subtraction: NaN propagates, inf - inf = NaN. -/
def flSub : Fl → Fl → Fl
  | Fl.nan, _ => Fl.nan
  | _, Fl.nan => Fl.nan
  | Fl.inf, Fl.inf => Fl.nan
  | Fl.inf, _ => Fl.inf
  | Fl.ninf, Fl.ninf => Fl.nan
  | Fl.ninf, _ => Fl.ninf
  | _, Fl.inf => Fl.ninf
  | _, Fl.ninf => Fl.inf
  | Fl.val q, Fl.val r => Fl.val (q - r)

/-- IEEE addition: NaN propagates, inf + (-inf) = NaN. -/
def flAdd : Fl → Fl → Fl
  | Fl.nan, _ => Fl.nan
  | _, Fl.nan => Fl.nan
  | Fl.inf, Fl.ninf => Fl.nan
  | Fl.ninf, Fl.inf => Fl.nan
  | Fl.inf, _ => Fl.inf
  | _, Fl.inf => Fl.inf
  | Fl.ninf, _ => Fl.ninf
  | _, Fl.ninf => Fl.ninf
  | Fl.val q, Fl.val r => Fl.val (q + r)

/-- IEEE division: NaN propagates, inf/inf = NaN, finite/inf = 0, q/0 is a
signed infinity for q nonzero and NaN for q = 0 (the model has one zero, taken
as +0). -/
def flDiv : Fl → Fl → Fl
  | Fl.nan, _ => Fl.nan
  | _, Fl.nan => Fl.nan
  | Fl.inf, Fl.inf => Fl.nan
  | Fl.inf, Fl.ninf => Fl.nan
  | Fl.ninf, Fl.inf => Fl.nan
  | Fl.ninf, Fl.ninf => Fl.nan
  | Fl.inf, Fl.val r => if r < 0 then Fl.ninf else Fl.inf
  | Fl.ninf, Fl.val r => if r < 0 then Fl.inf else Fl.ninf
  | Fl.val _, Fl.inf => Fl.val 0
  | Fl.val _, Fl.ninf => Fl.val 0
  | Fl.val q, Fl.val r =>
    if r = 0 then (if q = 0 then Fl.nan else if q < 0 then Fl.ninf else Fl.inf)
    else Fl.val (q / r)

/-- Machine epsilon of an IEEE double, std numeric limits epsilon: 2 ^ (-52),
exact. -/
def DBL_EPSILON : ℚ := 1 / 2 ^ 52

/-- Smallest positive normal IEEE double, std numeric limits min: 2 ^ (-1022),
exact. -/
def DBL_MIN : ℚ := 1 / 2 ^ 1022

/-- FloatingPointComparison.h: settings EQUALITY_RELATIVE_TOLERANCE = 1e-5. -/
def EQUALITY_RELATIVE_TOLERANCE : ℚ := 1e-5

/-- FloatingPointComparison.h: settings ZERO_ABSOLUTE_TOLERANCE = 1e-5. -/
def ZERO_ABSOLUTE_TOLERANCE : ℚ := 1e-5

/-- FloatingPointComparison.h, tracktable almost_zero: abs(z) < epsilon.  The
C++ default for epsilon is EQUALITY_RELATIVE_TOLERANCE; defaults are passed
explicitly at the modelled call sites. -/
def almost_zero (z : Fl) (epsilon : ℚ) : Bool :=
  flLt (flAbs z) (Fl.val epsilon)

/-- FloatingPointComparison.h, tracktable almost_equal.  The source's local
variables abs_a, abs_b and diff are inlined.  Branches in source order:
the a == b shortcut, then the zero-or-below-machine-epsilon absolute test
against tolerance * numeric_limits min, then the relative-error test. -/
def almost_equal (a b : Fl) (tolerance : ℚ) : Bool :=
  if ieeeEq a b then
    true
  else if ieeeEq a (Fl.val 0) || ieeeEq b (Fl.val 0)
      || flLt (flAbs (flSub a b)) (Fl.val DBL_EPSILON) then
    flLt (flAbs (flSub a b)) (Fl.val (tolerance * DBL_MIN))
  else
    flLt (flDiv (flAbs (flSub a b)) (flAdd (flAbs a) (flAbs b))) (Fl.val tolerance)

/-!
Geometry layer, in ideal real-number semantics.
-/

/-- Modelled from the spec: tracktable conversions radians (Core/Conversions.h
is not under src/) converts stored degrees to radians before angular formulas
are applied. -/
noncomputable def radians (degrees : ℝ) : ℝ := degrees * (Real.pi / 180)

/-- Modelled from the spec: Earth's mean radius in kilometers (the constant
behind radians_to_km in Core/Conversions.h, not under src/). -/
def EARTH_RADIUS_IN_KM : ℝ := 6371

/-- Modelled from the spec: tracktable conversions radians_to_km
(Core/Conversions.h, not under src/) multiplies a great-circle angular distance
in radians by Earth's mean radius to yield kilometers. -/
def radians_to_km (r : ℝ) : ℝ := r * EARTH_RADIUS_IN_KM

/-- Terrestrial.h: a 2D point on the sphere, coordinates in degrees of
longitude and latitude. -/
structure TerrestrialPoint where
  longitude : ℝ
  latitude : ℝ

/-- Model of the external geometry primitive consumed by the terrestrial
distance specialization (spec: the generic primitive returns the great-circle
angular distance in radians): the haversine central angle between two
lon/lat-degree points. -/
noncomputable def boost_geometry_distance (p q : TerrestrialPoint) : ℝ :=
  2 * Real.arcsin (Real.sqrt
    (Real.sin ((radians q.latitude - radians p.latitude) / 2) ^ 2
      + Real.cos (radians p.latitude) * Real.cos (radians q.latitude)
        * Real.sin ((radians q.longitude - radians p.longitude) / 2) ^ 2))

/-- Terrestrial.h lines 382-393, distance specialization for the terrestrial
domain: the generic primitive's angular distance in radians, converted to km. -/
noncomputable def distance (p q : TerrestrialPoint) : ℝ :=
  radians_to_km (boost_geometry_distance p q)

/-- Property values held by the Property Store (spec section 3): a real
number, text, or a timestamp. -/
inductive PropertyValue where
| real : ℝ → PropertyValue
| text : String → PropertyValue
| timestamp : ℤ → PropertyValue

/-- Terrestrial.h: a terrestrial trajectory point is a terrestrial point plus
a timestamp and a property store.  The timestamp is modelled at whole-second
resolution, so total_seconds of a timestamp difference is exactly the integer
difference.  The property store is a name-to-value mapping with unique,
case-sensitive names, modelled as an association list. -/
structure TerrestrialTrajectoryPoint extends TerrestrialPoint where
  timestamp : ℤ
  properties : List (String × PropertyValue)

/-- Modelled from the spec: the Property Store non-throwing accessor
real_property(name, &found) (TrajectoryPoint.h / PropertyMap, not under src/):
typed, fallible lookup of a named real-valued property; found is false when
the name is absent or holds a non-real value.  Returning an Option rather
than a placeholder-and-flag pair avoids reproducing the source's unspecified
placeholder value. -/
def lookup_real : List (String × PropertyValue) → String → Option ℝ
  | [], _ => none
  | (k, PropertyValue.real x) :: rest, name =>
    if k = name then some x else lookup_real rest name
  | (k, _) :: rest, name =>
    if k = name then none else lookup_real rest name

/-- Terrestrial.h lines 397-417, speed_between specialization for terrestrial
trajectory points: distance travelled in km over elapsed seconds; if the
elapsed time is almost zero (almost_zero at its default epsilon,
EQUALITY_RELATIVE_TOLERANCE) the result is 0, otherwise
3600 * distance / seconds.  The elapsed seconds, an exact integer, enter
almost_zero as the corresponding Fl value. -/
noncomputable def speed_between (p q : TerrestrialTrajectoryPoint) : ℝ :=
  if almost_zero (Fl.val ((q.timestamp - p.timestamp : ℤ) : ℚ)) EQUALITY_RELATIVE_TOLERANCE then
    0
  else
    3600.0 * distance p.toTerrestrialPoint q.toTerrestrialPoint
      / (((q.timestamp - p.timestamp : ℤ) : ℚ) : ℝ)

/-- Terrestrial.h lines 150-162, TerrestrialPoint ECEF_from_km: WGS84
geodetic-to-ECEF conversion with lon/lat in radians and altitude in km.  The
source's local variables a = 6378.137, e2 = 8.1819190842622e-2 squared,
sinLatitude, n and NAC are inlined. -/
noncomputable def TerrestrialPoint.ECEF_from_km (lon lat alt : ℝ) : ℝ × ℝ × ℝ :=
  ((6378.137 / Real.sqrt (1 - 8.1819190842622e-2 * 8.1819190842622e-2
        * Real.sin lat * Real.sin lat) + alt) * Real.cos lat * Real.cos lon,
   (6378.137 / Real.sqrt (1 - 8.1819190842622e-2 * 8.1819190842622e-2
        * Real.sin lat * Real.sin lat) + alt) * Real.cos lat * Real.sin lon,
   (6378.137 / Real.sqrt (1 - 8.1819190842622e-2 * 8.1819190842622e-2
        * Real.sin lat * Real.sin lat)
      * (1 - 8.1819190842622e-2 * 8.1819190842622e-2) + alt) * Real.sin lat)

/-- The WGS84 formula written exactly as the spec states it, with
N = a / sqrt(1 - e2 * sin(lat)^2), for comparison with the implementation. -/
noncomputable def ecef_from_geodetic_spec (lon lat alt : ℝ) : ℝ × ℝ × ℝ :=
  ((6378.137 / Real.sqrt (1 - 8.1819190842622e-2 ^ 2 * Real.sin lat ^ 2) + alt)
      * Real.cos lat * Real.cos lon,
   (6378.137 / Real.sqrt (1 - 8.1819190842622e-2 ^ 2 * Real.sin lat ^ 2) + alt)
      * Real.cos lat * Real.sin lon,
   (6378.137 / Real.sqrt (1 - 8.1819190842622e-2 ^ 2 * Real.sin lat ^ 2)
      * (1 - 8.1819190842622e-2 ^ 2) + alt) * Real.sin lat)

/-- Terrestrial.h lines 87-90: the PropertyDoesNotExist exception, carrying
the name of the missing property. -/
structure PropertyDoesNotExist where
  property : String
deriving DecidableEq

/-- Terrestrial.h lines 261-270, TerrestrialTrajectoryPoint ECEF(ratio,
altitudeString): reads the named real property through the checked accessor,
throws PropertyDoesNotExist (modelled as Except.error) when it reports
found = false, and otherwise converts the stored degree coordinates to radians
and applies ECEF_from_km with the altitude scaled to km by the given ratio
(parameter named scale here). -/
noncomputable def TerrestrialTrajectoryPoint.ECEF (p : TerrestrialTrajectoryPoint)
    (scale : ℝ) (altitudeString : String) : Except PropertyDoesNotExist (ℝ × ℝ × ℝ) :=
  match lookup_real p.properties altitudeString with
  | none => Except.error ⟨altitudeString⟩
  | some v =>
    Except.ok (TerrestrialPoint.ECEF_from_km (radians p.longitude) (radians p.latitude) (scale * v))

/-- Terrestrial.h lines 278-283, ECEF_from_feet: ECEF with the feet-to-km
conversion 1.0 / 3280.839895013123. -/
noncomputable def TerrestrialTrajectoryPoint.ECEF_from_feet (p : TerrestrialTrajectoryPoint)
    (altitudeString : String) : Except PropertyDoesNotExist (ℝ × ℝ × ℝ) :=
  p.ECEF (1.0 / 3280.839895013123) altitudeString

/-- Terrestrial.h lines 291-294, ECEF_from_meters: ECEF with the meters-to-km
conversion 1.0 / 1000.0. -/
noncomputable def TerrestrialTrajectoryPoint.ECEF_from_meters (p : TerrestrialTrajectoryPoint)
    (altitudeString : String) : Except PropertyDoesNotExist (ℝ × ℝ × ℝ) :=
  p.ECEF (1.0 / 1000.0) altitudeString

/-!
Algorithm dispatch: the delegated point algorithms (C8) and the unspecialized
fraction-sampling signatures (C9).
-/

/-- A per-domain implementation of the dispatched point algorithms named by
the spec: interpolate, extrapolate, bearing, and the two turn angles. -/
structure PointAlgorithms (P : Type) where
  interpolate : P → P → ℝ → P
  extrapolate : P → P → ℝ → P
  bearing : P → P → ℝ
  signed_turn_angle : P → P → P → ℝ
  unsigned_turn_angle : P → P → P → ℝ

/-- Modelled from the spec: the TRACKTABLE_DELEGATE macro (DomainMacros.h, not
under src/) makes the algorithm specialization for a derived point type
forward unchanged to the implementation for its base point type. -/
def TRACKTABLE_DELEGATE {P : Type} (base_impl : PointAlgorithms P) : PointAlgorithms P :=
  base_impl

/-- Terrestrial.h lines 446-451: the terrestrial base point delegates
interpolate, extrapolate, bearing, signed_turn_angle and unsigned_turn_angle
to the PointLonLat implementations, which are the generic Cartesian-default
ones (taken as an arbitrary argument, since they live outside this core). -/
def terrestrial_base_point_algorithms (generic : PointAlgorithms TerrestrialPoint) :
    PointAlgorithms TerrestrialPoint :=
  TRACKTABLE_DELEGATE generic

/-- Terrestrial.h lines 453-458: the terrestrial trajectory point likewise
delegates the five algorithms to its base trajectory point implementations. -/
def terrestrial_trajectory_point_algorithms
    (generic : PointAlgorithms TerrestrialTrajectoryPoint) :
    PointAlgorithms TerrestrialTrajectoryPoint :=
  TRACKTABLE_DELEGATE generic

/-- PointAtFraction.h lines 43-51: the unspecialized primary template of
point_at_time_fraction.  Instantiating it for a type whose size is sizeofT
requires its BOOST_MPL_ASSERT_MSG condition sizeof(T) == 0 to hold; the
structure holds evidence of that condition. -/
structure point_at_time_fraction_unspecialized (sizeofT : ℕ) : Prop where
  mpl_assert : sizeofT = 0

/-- PointAtFraction.h lines 53-61: the unspecialized primary template of
point_at_length_fraction, with the same BOOST_MPL_ASSERT_MSG condition. -/
structure point_at_length_fraction_unspecialized (sizeofT : ℕ) : Prop where
  mpl_assert : sizeofT = 0

/-!
Theorems.
-/

/-- C2 counterexample: the claim that almost_equal(1e-10, -1e-10) is true under
the default tolerance 1e-5 is false on the code: the difference 2e-10 is not
below machine epsilon, so the relative-error branch runs, and the relative
error is 1, which is not below the tolerance. -/
theorem almost_equal_tiny_opposite_not_true :
    ¬ (almost_equal (Fl.val 1e-10) (Fl.val (-1e-10)) EQUALITY_RELATIVE_TOLERANCE = true) := by
  norm_num [almost_equal, ieeeEq, flLt, flSub, flAbs, flAdd, flDiv, DBL_EPSILON, DBL_MIN,
    EQUALITY_RELATIVE_TOLERANCE]

/-- C2 amended: almost_equal(1e-10, -1e-10) returns false under the default
tolerance 1e-5; the operands fall into the relative-error branch, where the
relative error |a - b| / (|a| + |b|) is exactly 1. -/
theorem almost_equal_tiny_opposite_false :
    almost_equal (Fl.val 1e-10) (Fl.val (-1e-10)) EQUALITY_RELATIVE_TOLERANCE = false ∧
    flDiv (flAbs (flSub (Fl.val 1e-10) (Fl.val (-1e-10))))
      (flAdd (flAbs (Fl.val 1e-10)) (flAbs (Fl.val (-1e-10)))) = Fl.val 1 := by
  norm_num [almost_equal, ieeeEq, flLt, flSub, flAbs, flAdd, flDiv, DBL_EPSILON, DBL_MIN,
    EQUALITY_RELATIVE_TOLERANCE]

/-- C3: branch behavior of almost_equal.  Equal non-NaN inputs return true
immediately; otherwise, when either operand equals zero or the difference is
below machine epsilon, the result is the absolute test of the difference
against tolerance times the smallest representable normal value; in the
remaining case the result is the relative-error test against the tolerance.
At the default tolerance, 1.0 and 1.00002 are almost equal while 1.0 and 1.1
are not. -/
theorem almost_equal_branch_spec :
    (∀ (a b : Fl) (tol : ℚ),
      (a = b → a ≠ Fl.nan → almost_equal a b tol = true) ∧
      (ieeeEq a b = false →
        (ieeeEq a (Fl.val 0) || ieeeEq b (Fl.val 0)
          || flLt (flAbs (flSub a b)) (Fl.val DBL_EPSILON)) = true →
        almost_equal a b tol = flLt (flAbs (flSub a b)) (Fl.val (tol * DBL_MIN))) ∧
      (ieeeEq a b = false →
        (ieeeEq a (Fl.val 0) || ieeeEq b (Fl.val 0)
          || flLt (flAbs (flSub a b)) (Fl.val DBL_EPSILON)) = false →
        almost_equal a b tol
          = flLt (flDiv (flAbs (flSub a b)) (flAdd (flAbs a) (flAbs b))) (Fl.val tol))) ∧
    almost_equal (Fl.val 1) (Fl.val 1.00002) EQUALITY_RELATIVE_TOLERANCE = true ∧
    almost_equal (Fl.val 1) (Fl.val 1.1) EQUALITY_RELATIVE_TOLERANCE = false := by
  refine ⟨?_, ?_, ?_⟩
  · intro a b tol
    refine ⟨?_, ?_, ?_⟩
    · rintro rfl hn
      cases a with
      | nan => exact absurd rfl hn
      | inf => simp [almost_equal, ieeeEq]
      | ninf => simp [almost_equal, ieeeEq]
      | val q => simp [almost_equal, ieeeEq]
    · intro h1 h2
      simp [almost_equal, h1, h2]
    · intro h1 h2
      simp [almost_equal, h1, h2]
  · norm_num [almost_equal, ieeeEq, flLt, flSub, flAbs, flAdd, flDiv, DBL_EPSILON, DBL_MIN,
      EQUALITY_RELATIVE_TOLERANCE]
  · norm_num [almost_equal, ieeeEq, flLt, flSub, flAbs, flAdd, flDiv, DBL_EPSILON, DBL_MIN,
      EQUALITY_RELATIVE_TOLERANCE]

/-- Witness for C3: the three branches instantiated at concrete inputs, with
each hypothesis checked by evaluation. -/
theorem almost_equal_branch_spec_witness :
    almost_equal (Fl.val 2) (Fl.val 2) 1e-5 = true ∧
    almost_equal (Fl.val 0) (Fl.val 1e-300) 1e-5
      = flLt (flAbs (flSub (Fl.val 0) (Fl.val 1e-300))) (Fl.val ((1e-5 : ℚ) * DBL_MIN)) ∧
    almost_equal (Fl.val 1) (Fl.val 2) 1e-5
      = flLt (flDiv (flAbs (flSub (Fl.val 1) (Fl.val 2)))
          (flAdd (flAbs (Fl.val 1)) (flAbs (Fl.val 2)))) (Fl.val 1e-5) := by
  refine ⟨?_, ?_, ?_⟩
  · exact (almost_equal_branch_spec.1 (Fl.val 2) (Fl.val 2) 1e-5).1 rfl (by decide)
  · exact (almost_equal_branch_spec.1 (Fl.val 0) (Fl.val 1e-300) 1e-5).2.1
      (by norm_num [ieeeEq]) (by norm_num [ieeeEq])
  · exact (almost_equal_branch_spec.1 (Fl.val 1) (Fl.val 2) 1e-5).2.2
      (by norm_num [ieeeEq])
      (by norm_num [ieeeEq, flLt, flSub, flAbs, DBL_EPSILON])

/-- C10: almost_equal is false whenever either argument is NaN (in particular
on two NaNs), for every tolerance, and almost_zero of NaN is false for every
epsilon. -/
theorem almost_equal_nan_spec (b : Fl) (tol epsilon : ℚ) :
    almost_equal Fl.nan b tol = false ∧
    almost_equal b Fl.nan tol = false ∧
    almost_zero Fl.nan epsilon = false := by
  refine ⟨?_, ?_, rfl⟩ <;>
    cases b <;>
      simp [almost_equal, almost_zero, ieeeEq, flSub, flAbs, flLt, flDiv, flAdd]

/-- The modelled great-circle distance in km is nonnegative: the haversine
angle is an arcsine of a square root. -/
theorem distance_nonneg (p q : TerrestrialPoint) : 0 ≤ distance p q := by
  unfold distance radians_to_km EARTH_RADIUS_IN_KM boost_geometry_distance
  have h : (0 : ℝ) ≤ Real.arcsin (Real.sqrt
      (Real.sin ((radians q.latitude - radians p.latitude) / 2) ^ 2
        + Real.cos (radians p.latitude) * Real.cos (radians q.latitude)
          * Real.sin ((radians q.longitude - radians p.longitude) / 2) ^ 2)) :=
    Real.arcsin_nonneg.mpr (Real.sqrt_nonneg _)
  nlinarith [h]

/-- C4: the terrestrial distance specialization is the generic great-circle
primitive's angular distance in radians, multiplied by the radians-to-km
conversion (Earth's mean radius); consequently the distance from a point to
itself is 0. -/
theorem terrestrial_distance_spec (p q : TerrestrialPoint) :
    distance p q = boost_geometry_distance p q * EARTH_RADIUS_IN_KM ∧
    distance p p = 0 := by
  constructor
  · rfl
  · unfold distance radians_to_km boost_geometry_distance
    simp

/-- C1: terrestrial speed_between returns 0 when the elapsed seconds between
the timestamps are almost zero per almost_zero at its default tolerance — in
particular whenever the two timestamps are identical, regardless of spatial
separation — and otherwise returns 3600 * distance / elapsed_seconds, whose
sign follows the sign of the elapsed time. -/
theorem speed_between_terrestrial_spec (p q : TerrestrialTrajectoryPoint) :
    (almost_zero (Fl.val ((q.timestamp - p.timestamp : ℤ) : ℚ))
        EQUALITY_RELATIVE_TOLERANCE = true →
      speed_between p q = 0) ∧
    (q.timestamp = p.timestamp → speed_between p q = 0) ∧
    (almost_zero (Fl.val ((q.timestamp - p.timestamp : ℤ) : ℚ))
        EQUALITY_RELATIVE_TOLERANCE = false →
      speed_between p q
          = 3600 * distance p.toTerrestrialPoint q.toTerrestrialPoint
            / (((q.timestamp - p.timestamp : ℤ) : ℚ) : ℝ) ∧
        (0 < (((q.timestamp - p.timestamp : ℤ) : ℚ) : ℝ) → 0 ≤ speed_between p q) ∧
        ((((q.timestamp - p.timestamp : ℤ) : ℚ) : ℝ) < 0 → speed_between p q ≤ 0)) := by
  refine ⟨?_, ?_, ?_⟩
  · intro h
    unfold speed_between
    rw [if_pos h]
  · intro h
    have hz : almost_zero (Fl.val ((q.timestamp - p.timestamp : ℤ) : ℚ))
        EQUALITY_RELATIVE_TOLERANCE = true := by
      rw [h, sub_self]
      norm_num [almost_zero, flAbs, flLt, EQUALITY_RELATIVE_TOLERANCE]
    unfold speed_between
    rw [if_pos hz]
  · intro h
    have hval : speed_between p q
        = 3600 * distance p.toTerrestrialPoint q.toTerrestrialPoint
          / (((q.timestamp - p.timestamp : ℤ) : ℚ) : ℝ) := by
      unfold speed_between
      rw [if_neg (by rw [h]; simp)]
      norm_num
    refine ⟨hval, ?_, ?_⟩
    · intro he
      rw [hval]
      exact div_nonneg (by nlinarith [distance_nonneg p.toTerrestrialPoint q.toTerrestrialPoint])
        he.le
    · intro he
      rw [hval]
      apply div_nonpos_of_nonneg_of_nonpos
      · nlinarith [distance_nonneg p.toTerrestrialPoint q.toTerrestrialPoint]
      · exact he.le

/-- Witness for C1: with identical timestamps the speed is 0 even between
far-apart points, and across one hour the speed is 3600 * distance / 3600. -/
theorem speed_between_terrestrial_spec_witness :
    speed_between ⟨⟨0, 0⟩, 0, []⟩ ⟨⟨90, 0⟩, 0, []⟩ = 0 ∧
    speed_between ⟨⟨0, 0⟩, 0, []⟩ ⟨⟨90, 0⟩, 3600, []⟩
      = 3600 * distance (⟨⟨0, 0⟩, 0, []⟩ : TerrestrialTrajectoryPoint).toTerrestrialPoint
          (⟨⟨90, 0⟩, 3600, []⟩ : TerrestrialTrajectoryPoint).toTerrestrialPoint
        / ((((⟨⟨90, 0⟩, 3600, []⟩ : TerrestrialTrajectoryPoint).timestamp
            - (⟨⟨0, 0⟩, 0, []⟩ : TerrestrialTrajectoryPoint).timestamp : ℤ) : ℚ) : ℝ) := by
  constructor
  · exact (speed_between_terrestrial_spec ⟨⟨0, 0⟩, 0, []⟩ ⟨⟨90, 0⟩, 0, []⟩).2.1 rfl
  · exact ((speed_between_terrestrial_spec ⟨⟨0, 0⟩, 0, []⟩ ⟨⟨90, 0⟩, 3600, []⟩).2.2
      (by norm_num [almost_zero, flAbs, flLt, EQUALITY_RELATIVE_TOLERANCE])).1

/-- C5: ECEF_from_km computes exactly the spec's WGS84 formula with
a = 6378.137 km and e2 the square of 8.1819190842622e-2, and at
(0, 0, 0) it returns exactly (6378.137, 0, 0). -/
theorem ECEF_from_km_spec :
    (∀ lon lat alt : ℝ,
      TerrestrialPoint.ECEF_from_km lon lat alt = ecef_from_geodetic_spec lon lat alt) ∧
    TerrestrialPoint.ECEF_from_km 0 0 0 = (6378.137, 0, 0) := by
  constructor
  · intro lon lat alt
    unfold TerrestrialPoint.ECEF_from_km ecef_from_geodetic_spec
    have h1 : (1 : ℝ) - 8.1819190842622e-2 * 8.1819190842622e-2
          * Real.sin lat * Real.sin lat
        = 1 - 8.1819190842622e-2 ^ 2 * Real.sin lat ^ 2 := by ring
    have h2 : (1 : ℝ) - 8.1819190842622e-2 * 8.1819190842622e-2
        = 1 - 8.1819190842622e-2 ^ 2 := by ring
    rw [h1, h2]
  · unfold TerrestrialPoint.ECEF_from_km
    norm_num

/-- C6: ECEF(ratio, name) fails with PropertyDoesNotExist carrying the
requested name exactly when the point's property store has no real property
of that name, and returns normally (Except.ok) when one is present.  The
receiver is unchanged: as in the source (a const member function), the
operation is a pure function of the point that returns only the converted
coordinates. -/
theorem ECEF_property_error_spec (p : TerrestrialTrajectoryPoint) (scale : ℝ) (s : String) :
    (p.ECEF scale s = Except.error ⟨s⟩ ↔ lookup_real p.properties s = none) ∧
    (∀ v : ℝ, lookup_real p.properties s = some v →
      p.ECEF scale s = Except.ok
        (TerrestrialPoint.ECEF_from_km (radians p.longitude) (radians p.latitude) (scale * v))) := by
  constructor
  · constructor
    · intro h
      cases hl : lookup_real p.properties s with
      | none => rfl
      | some v =>
        rw [TerrestrialTrajectoryPoint.ECEF, hl] at h
        exact absurd h (by simp)
    · intro h
      rw [TerrestrialTrajectoryPoint.ECEF, h]
  · intro v h
    rw [TerrestrialTrajectoryPoint.ECEF, h]

/-- Witness for C6 at concrete points: without the property the call fails
with PropertyDoesNotExist of the requested name; with it, it succeeds. -/
theorem ECEF_property_error_spec_witness :
    TerrestrialTrajectoryPoint.ECEF ⟨⟨10, 20⟩, 0, []⟩ 1 "altitude"
      = Except.error ⟨"altitude"⟩ ∧
    TerrestrialTrajectoryPoint.ECEF
        ⟨⟨10, 20⟩, 0, [("altitude", PropertyValue.real 5)]⟩ 1 "altitude"
      = Except.ok (TerrestrialPoint.ECEF_from_km (radians 10) (radians 20) (1 * 5)) := by
  constructor
  · exact (ECEF_property_error_spec ⟨⟨10, 20⟩, 0, []⟩ 1 "altitude").1.mpr rfl
  · exact (ECEF_property_error_spec
      ⟨⟨10, 20⟩, 0, [("altitude", PropertyValue.real 5)]⟩ 1 "altitude").2 5 rfl

/-- C7: with the named altitude property present, ECEF_from_feet is ECEF with
the ratio 1 / 3280.839895013123 and ECEF_from_meters is ECEF with the ratio
1 / 1000; each wrapper scales the stored altitude by its ratio to kilometers
and converts the stored degree longitude and latitude to radians before
applying ECEF_from_km. -/
theorem ECEF_unit_wrappers_spec (p : TerrestrialTrajectoryPoint) (s : String) (v : ℝ)
    (h : lookup_real p.properties s = some v) :
    p.ECEF_from_feet s = p.ECEF (1.0 / 3280.839895013123) s ∧
    p.ECEF_from_meters s = p.ECEF (1.0 / 1000.0) s ∧
    p.ECEF_from_feet s = Except.ok (TerrestrialPoint.ECEF_from_km
      (radians p.longitude) (radians p.latitude) (1.0 / 3280.839895013123 * v)) ∧
    p.ECEF_from_meters s = Except.ok (TerrestrialPoint.ECEF_from_km
      (radians p.longitude) (radians p.latitude) (1.0 / 1000.0 * v)) := by
  refine ⟨rfl, rfl, ?_, ?_⟩
  · rw [TerrestrialTrajectoryPoint.ECEF_from_feet, TerrestrialTrajectoryPoint.ECEF, h]
  · rw [TerrestrialTrajectoryPoint.ECEF_from_meters, TerrestrialTrajectoryPoint.ECEF, h]

/-- Witness for C7: a point storing altitude 1000 under the name altitude,
with the meters wrapper producing the km-scaled altitude. -/
theorem ECEF_unit_wrappers_spec_witness :
    lookup_real [("altitude", PropertyValue.real 1000)] "altitude" = some 1000 ∧
    TerrestrialTrajectoryPoint.ECEF_from_meters
        ⟨⟨0, 0⟩, 0, [("altitude", PropertyValue.real 1000)]⟩ "altitude"
      = Except.ok (TerrestrialPoint.ECEF_from_km (radians 0) (radians 0)
          (1.0 / 1000.0 * 1000)) := by
  refine ⟨rfl, ?_⟩
  exact (ECEF_unit_wrappers_spec
    ⟨⟨0, 0⟩, 0, [("altitude", PropertyValue.real 1000)]⟩ "altitude" 1000 rfl).2.2.2

/-- C8: for terrestrial points and terrestrial trajectory points, the
dispatched interpolate, extrapolate, bearing, signed_turn_angle and
unsigned_turn_angle are exactly the generic (Cartesian-default)
implementations on the underlying base point type, with no unit conversion
applied — whatever those generic implementations are. -/
theorem terrestrial_delegation_spec
    (gB : PointAlgorithms TerrestrialPoint)
    (gT : PointAlgorithms TerrestrialTrajectoryPoint) :
    (terrestrial_base_point_algorithms gB).interpolate = gB.interpolate ∧
    (terrestrial_base_point_algorithms gB).extrapolate = gB.extrapolate ∧
    (terrestrial_base_point_algorithms gB).bearing = gB.bearing ∧
    (terrestrial_base_point_algorithms gB).signed_turn_angle = gB.signed_turn_angle ∧
    (terrestrial_base_point_algorithms gB).unsigned_turn_angle = gB.unsigned_turn_angle ∧
    (terrestrial_trajectory_point_algorithms gT).interpolate = gT.interpolate ∧
    (terrestrial_trajectory_point_algorithms gT).extrapolate = gT.extrapolate ∧
    (terrestrial_trajectory_point_algorithms gT).bearing = gT.bearing ∧
    (terrestrial_trajectory_point_algorithms gT).signed_turn_angle = gT.signed_turn_angle ∧
    (terrestrial_trajectory_point_algorithms gT).unsigned_turn_angle = gT.unsigned_turn_angle :=
  ⟨rfl, rfl, rfl, rfl, rfl, rfl, rfl, rfl, rfl, rfl⟩

/-- C9: every C++ complete type has sizeof at least 1, so the
BOOST_MPL_ASSERT condition sizeof(T) == 0 of the unspecialized primary
templates is unsatisfiable: neither fraction-sampling template can be
instantiated for a type without a specialization.  The rejection is therefore
at compile time (no instantiation exists), and no runtime exception path can
be reached. -/
theorem point_at_fraction_unspecialized_rejected (sizeofT : ℕ) (h : 1 ≤ sizeofT) :
    ¬ point_at_time_fraction_unspecialized sizeofT ∧
    ¬ point_at_length_fraction_unspecialized sizeofT := by
  constructor
  · intro hi
    exact absurd hi.mpl_assert (by omega)
  · intro hi
    exact absurd hi.mpl_assert (by omega)

/-- Witness for C9 at a concrete size: a type of sizeof 8 satisfies the C++
size lower bound, and neither primary template is instantiable for it. -/
theorem point_at_fraction_unspecialized_rejected_witness :
    (1 : ℕ) ≤ 8 ∧
    (¬ point_at_time_fraction_unspecialized 8 ∧
     ¬ point_at_length_fraction_unspecialized 8) :=
  ⟨by decide, point_at_fraction_unspecialized_rejected 8 (by decide)⟩
